import Mathlib

/-!
Verification of the hotel cost-management engine
(src/cost_management_app.py).

The SQLite-backed store (class CostManagementDB), the pandas-based
aggregation used by the reporting pages (class CostManagementApp) and the
ingestion/normalization pipeline of the specification are given a shallow
embedding.  Cell values are modelled exactly: SQLite REAL / pandas numeric
cells become rationals, text cells become strings, NULL / missing cells
become an explicit null marker.  A pandas DataFrame and a SQLite table are
both modelled as a list of column names plus a list of rows
(pandas to_sql / read_sql_query translate between the two preserving
columns and rows, which is the only behaviour the program relies on).
-/

deriving instance DecidableEq for Except

namespace CostMgmt

/-- A cell value: text, numeric (SQLite REAL / pandas numeric modelled as
an exact rational), or SQL NULL / pandas missing. -/
inductive Val where
  | str : String → Val
  | num : Rat → Val
  | null : Val
deriving DecidableEq, Repr

/-- A stored record: an association list from column name to value.  A
column absent from the list reads as missing. -/
abbrev Row := List (String × Val)

/-- A tabular frame: ordered column names plus rows.  Models both a pandas
DataFrame and a SQLite table. -/
structure DataFrame where
  cols : List String
  rows : List Row
deriving DecidableEq, Repr

/-- Read the cell of column c in row r; none when the column is absent. -/
def getVal (r : Row) (c : String) : Option Val :=
  (r.find? (fun p => p.1 == c)).map (fun p => p.2)

/-- Read a numeric cell; none when the cell is absent, NULL or text. -/
def getNum (r : Row) (c : String) : Option Rat :=
  match getVal r c with
  | some (Val.num q) => some q
  | _ => none

/-- Read a text cell; none when the cell is absent, NULL or numeric. -/
def getStr (r : Row) (c : String) : Option String :=
  match getVal r c with
  | some (Val.str s) => some s
  | _ => none

/-- Overwrite the cell of column c in row r, appending the binding when the
column is absent. -/
def setVal (r : Row) (c : String) (v : Val) : Row :=
  if (r.find? (fun p => p.1 == c)).isSome then
    r.map (fun p => if p.1 == c then (p.1, v) else p)
  else
    r ++ [(c, v)]

/-- The four tables created by CostManagementDB.init_db. -/
inductive TableName where
  | receipts
  | sales
  | recipes
  | inventory
deriving DecidableEq, Repr

/-- The database state: one frame per table. -/
structure DB where
  receipts : DataFrame
  sales : DataFrame
  recipes : DataFrame
  inventory : DataFrame
deriving DecidableEq, Repr

def DB.table (db : DB) : TableName → DataFrame
  | TableName.receipts => db.receipts
  | TableName.sales => db.sales
  | TableName.recipes => db.recipes
  | TableName.inventory => db.inventory

def DB.setTable (db : DB) : TableName → DataFrame → DB
  | TableName.receipts, f => ⟨f, db.sales, db.recipes, db.inventory⟩
  | TableName.sales, f => ⟨db.receipts, f, db.recipes, db.inventory⟩
  | TableName.recipes, f => ⟨db.receipts, db.sales, f, db.inventory⟩
  | TableName.inventory, f => ⟨db.receipts, db.sales, db.recipes, f⟩

/-- CostManagementDB.init_db on a fresh database file: CREATE TABLE IF NOT
EXISTS gives each of the four tables its baseline column set (including the
AUTOINCREMENT id and the created_at column with DEFAULT CURRENT_TIMESTAMP)
and no rows.  Column type affinities and the timestamp default are schema
metadata; only the column names are observable through the operations the
claims exercise, so the schema is modelled as the column-name list. -/
def initDb : DB :=
  ⟨⟨["id", "date", "store", "item_group", "item_code", "item_name", "uom",
     "qty", "rate", "value", "cost_center", "user", "hotel", "month",
     "created_at"], []⟩,
   ⟨["id", "date", "item_code", "item_name", "quantity", "rate", "value",
     "discount", "created_at"], []⟩,
   ⟨["id", "item_code", "item_name", "selling_price", "cost_price",
     "cost_percentage", "created_at"], []⟩,
   ⟨["id", "item_code", "item_name", "opening_balance", "receipts",
     "issues", "closing_balance", "created_at"], []⟩⟩

/-- CostManagementDB.add_column_if_not_exists: PRAGMA table_info lists the
current column names; ALTER TABLE ... ADD COLUMN appends the new column only
when its name is not already in that list, and existing rows are untouched
(the new column reads as NULL for them).  The declared column type only
fixes an affinity no claim depends on, so it is not tracked. -/
def addColumnIfNotExists (t : TableName) (column : String) (colType : String)
    (db : DB) : DB :=
  if column ∈ (db.table t).cols then db
  else db.setTable t ⟨(db.table t).cols ++ [column], (db.table t).rows⟩

/-- CostManagementDB.process_and_store_receipt_data:
df.to_sql with if_exists set to replace drops the existing table and
recreates it with exactly the frame's columns and rows (index=False, so no
extra index column). -/
def processAndStoreReceiptData (df : DataFrame) (db : DB) : DB :=
  db.setTable TableName.receipts df

/-- CostManagementDB.process_and_store_sales_data: same replace write into
the sales table. -/
def processAndStoreSalesData (df : DataFrame) (db : DB) : DB :=
  db.setTable TableName.sales df

/-- CostManagementDB.process_and_store_recipe_data: same replace write into
the recipes table. -/
def processAndStoreRecipeData (df : DataFrame) (db : DB) : DB :=
  db.setTable TableName.recipes df

/-- CostManagementDB.get_receipt_data: SELECT * FROM receipts returns the
whole table as a frame. -/
def getReceiptData (db : DB) : DataFrame :=
  db.receipts

/-- CostManagementDB.get_sales_data: SELECT * FROM sales. -/
def getSalesData (db : DB) : DataFrame :=
  db.sales

/-- CostManagementDB.get_recipe_data: SELECT * FROM recipes. -/
def getRecipeData (db : DB) : DataFrame :=
  db.recipes

/-- The three ingestion kinds (the inventory table has no ingestion path). -/
inductive Kind where
  | receipt
  | sale
  | recipe
deriving DecidableEq, Repr

def tableOf : Kind → TableName
  | Kind.receipt => TableName.receipts
  | Kind.sale => TableName.sales
  | Kind.recipe => TableName.recipes

/-- readTable dispatched per kind, via the get_*_data readers of the
source. -/
def readTable (k : Kind) (db : DB) : DataFrame :=
  match k with
  | Kind.receipt => getReceiptData db
  | Kind.sale => getSalesData db
  | Kind.recipe => getRecipeData db

/-- The REPLACE write policy dispatched per kind, via the
process_and_store_*_data writers of the source. -/
def storeReplace (k : Kind) (df : DataFrame) (db : DB) : DB :=
  match k with
  | Kind.receipt => processAndStoreReceiptData df db
  | Kind.sale => processAndStoreSalesData df db
  | Kind.recipe => processAndStoreRecipeData df db

/-- Modelled from the spec: the fixed source-column alias map of the
Ingestion Normalizer (spec 4.2 and 6); the ingestion-and-validation
revision of the program is not under src/.  Names outside the map pass
through unchanged (the normalizer is agnostic to extra columns). -/
def canonicalName (c : String) : String :=
  if c == "Date" then "date"
  else if c == "Store" then "store"
  else if c == "Item Group" then "item_group"
  else if c == "Item Code" then "item_code"
  else if c == "Item Name" then "item_name"
  else if c == "UOM" then "uom"
  else if c == "Qty" then "qty"
  else if c == "Rate" then "rate"
  else if c == "Value" then "value"
  else if c == "Cost Center" then "cost_center"
  else if c == "User" then "user"
  else if c == "Hotel" then "hotel"
  else if c == "MONTH" then "month"
  else if c == "Quantity" then "quantity"
  else if c == "Discount" then "discount"
  else if c == "Selling Price" then "selling_price"
  else if c == "Cost Price" then "cost_price"
  else if c == "Cost Percentage" then "cost_percentage"
  else if c == "Category" then "category"
  else c

/-- Modelled from the spec: the kind-specific required-field sets of the
Ingestion Normalizer (spec 4.2); the spec does not enumerate them, so the
model requires the identifying and financial fields of each entity, with
cost_price required for recipes as in the spec's own test property. -/
def requiredFields : Kind → List String
  | Kind.receipt => ["date", "item_code", "item_name", "qty", "rate", "value"]
  | Kind.sale => ["date", "item_code", "item_name", "quantity", "rate", "value"]
  | Kind.recipe => ["item_code", "item_name", "selling_price", "cost_price"]

/-- The canonical column names of a payload after alias mapping. -/
def canonCols (p : DataFrame) : List String :=
  p.cols.map canonicalName

/-- The required canonical fields of kind k that the payload lacks after
alias mapping. -/
def requiredMissing (k : Kind) (p : DataFrame) : List String :=
  (requiredFields k).filter (fun f => decide (f ∉ canonCols p))

/-- One normalized row: canonical column names, missing cells made an
explicit empty value (spec 4.2 step 1). -/
def normRow (p : DataFrame) (r : Row) : Row :=
  p.cols.map (fun rc => (canonicalName rc, (getVal r rc).getD Val.null))

/-- The error taxonomy of the specification (spec 7) restricted to the
errors the ingestion pipeline can raise. -/
inductive IngestError where
  | emptyInput : IngestError
  | validation : List String → IngestError
  | derivation : IngestError
deriving DecidableEq, Repr

inductive DeriveError where
  | derivationError : DeriveError
deriving DecidableEq, Repr

/-- Modelled from the spec: the Metric Calculator (spec 4.3); the revision
of the program that computes cost_percentage conditionally is not under
src/.  A record already carrying a cost_percentage passes through
unchanged; otherwise the percentage is cost_price / selling_price * 100,
and a record whose selling_price is zero or missing (or whose cost_price
is missing, so the metric cannot be computed) fails with a
DerivationError.  Rationals are exact, so no NaN or infinity can arise. -/
def deriveRow (r : Row) : Except DeriveError Row :=
  match getNum r "cost_percentage" with
  | some _ => Except.ok r
  | none =>
    match getNum r "selling_price", getNum r "cost_price" with
    | some sp, some cp =>
        if sp = 0 then Except.error DeriveError.derivationError
        else Except.ok (setVal r "cost_percentage" (Val.num (cp / sp * 100)))
    | _, _ => Except.error DeriveError.derivationError

/-- Batch derivation, all-or-nothing (spec 7): the first failing record
rejects the whole batch. -/
def deriveRows : List Row → Except DeriveError (List Row)
  | [] => Except.ok []
  | r :: rs =>
    match deriveRow r, deriveRows rs with
    | Except.ok r', Except.ok rs' => Except.ok (r' :: rs')
    | Except.error e, _ => Except.error e
    | _, Except.error e => Except.error e

/-- Modelled from the spec: the Ingestion Normalizer plus Metric Calculator
(spec 4.2, 4.3); this revision of the program is not under src/.  A raw
payload with zero rows fails first with EmptyInputError (the check is on
the raw payload); then the required canonical fields are validated after
alias mapping, a failure naming every missing field; then the rows are
normalized, and for the recipe kind the cost percentage is derived. -/
def normalizePipeline (k : Kind) (p : DataFrame) :
    Except IngestError DataFrame :=
  if p.rows.isEmpty then Except.error IngestError.emptyInput
  else if (requiredMissing k p).isEmpty then
    match k with
    | Kind.recipe =>
      match deriveRows (p.rows.map (normRow p)) with
      | Except.ok rs => Except.ok ⟨canonCols p, rs⟩
      | Except.error _ => Except.error IngestError.derivation
    | Kind.receipt => Except.ok ⟨canonCols p, p.rows.map (normRow p)⟩
    | Kind.sale => Except.ok ⟨canonCols p, p.rows.map (normRow p)⟩
  else Except.error (IngestError.validation (requiredMissing k p))

/-- The two write policies of the Persistence Store (spec 4.4). -/
inductive Policy where
  | append
  | replace
deriving DecidableEq, Repr

/-- Modelled from the spec: the APPEND policy of the Persistence Store
(spec 4.4), not present in src/ (the source only replaces): each record is
stamped with the store clock (the now argument) and appended after the
prior rows, which are retained. -/
def storeAppend (k : Kind) (df : DataFrame) (now : String) (db : DB) : DB :=
  let old := db.table (tableOf k)
  db.setTable (tableOf k)
    ⟨old.cols, old.rows ++ df.rows.map (fun r => setVal r "created_at" (Val.str now))⟩

/-- The ingest operation of the specification: normalization pipeline, then
the write under the requested policy; the REPLACE branch is the
process_and_store_*_data write of the source. -/
def ingest (k : Kind) (p : DataFrame) (pol : Policy) (now : String)
    (db : DB) : Except IngestError DB :=
  match normalizePipeline k p with
  | Except.error e => Except.error e
  | Except.ok nf =>
    match pol with
    | Policy.replace => Except.ok (storeReplace k nf db)
    | Policy.append => Except.ok (storeAppend k nf now db)

/-- Stable insertion into an already sorted list: the new element is
placed before the first element it compares less-or-equal to. -/
def insertBy {α : Type} (le : α → α → Bool) (a : α) : List α → List α
  | [] => [a]
  | b :: l => if le a b then a :: b :: l else b :: insertBy le a l

/-- Stable insertion sort, the effective behaviour of the numpy sort the
pandas calls below degenerate to on these array sizes. -/
def sortBy {α : Type} (le : α → α → Bool) : List α → List α
  | [] => []
  | a :: l => insertBy le a (sortBy le l)

/-- The distinct group keys of a row set in ascending order: pandas groupby
sorts group keys ascending by default. -/
def groupKeys (rows : List Row) (keyField : String) : List String :=
  sortBy (fun a b => (compare a b).isLE)
    ((rows.filterMap (fun r => getStr r keyField)).dedup)

/-- Group sum: pandas sum over a group skips missing values. -/
def sumField (rows : List Row) (f : String) : Rat :=
  (rows.filterMap (fun r => getNum r f)).sum

/-- Pandas count: the number of non-missing values. -/
def countField (rows : List Row) (f : String) : Nat :=
  (rows.filterMap (fun r => getNum r f)).length

/-- Pandas mean: sum over count of the non-missing values (pandas yields
NaN on an empty group; rationals yield 0, a case no claim touches). -/
def meanField (rows : List Row) (f : String) : Rat :=
  sumField rows f / (countField rows f : Rat)

/-- DataFrame.round(2) on a numeric cell: nearest multiple of 1/100.
Numpy breaks exact half-ulp ties to even; this model breaks them upward, a
difference no claim's values reach. -/
def round2 (q : Rat) : Rat :=
  (Rat.floor (q * 100 + 1 / 2) : Rat) / 100

/-- One output row of the cost summary report. -/
structure SummaryRow where
  itemGroup : String
  valueSum : Rat
  valueMean : Rat
  valueCount : Nat
  qtySum : Rat
deriving DecidableEq, Repr

/-- CostManagementApp.generate_cost_summary_report:
receipt_df.groupby on Item Group, aggregated with Value: [sum, mean,
count] and Qty: sum, rounded to two decimals (counts are integral and
unaffected by the rounding). -/
def costSummary (rows : List Row) : List SummaryRow :=
  (groupKeys rows "Item Group").map (fun g =>
    let grp := rows.filter (fun r => getStr r "Item Group" == some g)
    ⟨g, round2 (sumField grp "Value"), round2 (meanField grp "Value"),
      countField grp "Value", round2 (sumField grp "Qty")⟩)

/-- The report as generated from the database, as in the source page. -/
def generateCostSummaryReport (db : DB) : List SummaryRow :=
  costSummary (getReceiptData db).rows

/-- Per-group sums keyed ascending, the groupby-sum of
CostManagementApp.show_overview_page. -/
def groupSums (rows : List Row) (keyField valField : String) :
    List (String × Rat) :=
  (groupKeys rows keyField).map (fun g =>
    (g, sumField (rows.filter (fun r => getStr r keyField == some g)) valField))

/-- Series.sort_values with ascending=False: pandas nargsort computes an
ascending argsort and reverses it (numpy quicksort is an introsort that
runs the stable insertion sort on arrays this small), so equal values come
out in the reverse of their prior, key-ascending, order. -/
def sortValuesDesc (l : List (String × Rat)) : List (String × Rat) :=
  (sortBy (fun a b => decide (a.2 ≤ b.2)) l).reverse

/-- CostManagementApp.show_overview_page top items:
groupby(key).sum().sort_values(ascending=False).head(n), with the group
field, value field and n (10 in the source) as parameters. -/
def topN (rows : List Row) (keyField valField : String) (n : Nat) :
    List (String × Rat) :=
  (sortValuesDesc (groupSums rows keyField valField)).take n

theorem DB.table_setTable_self (db : DB) (t : TableName) (f : DataFrame) :
    (DB.setTable db t f).table t = f := by
  cases t <;> rfl

/-- C5: for every table, column name and declared type, calling
add_column_if_not_exists twice with identical arguments yields the same
schema state as calling it once; the function is total (no error path: the
ALTER only runs when the column is absent), so the second call is a no-op
and never raises. -/
theorem c5_add_column_idempotent (t : TableName) (c ty : String) (db : DB) :
    addColumnIfNotExists t c ty (addColumnIfNotExists t c ty db) =
      addColumnIfNotExists t c ty db := by
  by_cases h : c ∈ (db.table t).cols
  · simp [addColumnIfNotExists, h]
  · simp [addColumnIfNotExists, h, DB.table_setTable_self]

/-- C6: add_column_if_not_exists mutates only the schema: the data rows of
every table (the mutated one included) are exactly the rows that were
there before, with every previously-present field value unchanged. -/
theorem c6_add_column_preserves_rows (t : TableName) (c ty : String)
    (db : DB) (t' : TableName) :
    ((addColumnIfNotExists t c ty db).table t').rows = (db.table t').rows := by
  unfold addColumnIfNotExists
  split
  · rfl
  · cases t <;> cases t' <;> rfl

/-- C1: ingest with the REPLACE policy followed by readTable returns
exactly the normalized rows of the payload, in count and per-field values;
the read-back frame is the normalized frame whatever database state the
ingest started from, so no prior row of the table survives. -/
theorem c1_replace_round_trip (k : Kind) (p : DataFrame) (now : String)
    (db : DB) (nf : DataFrame)
    (h : normalizePipeline k p = Except.ok nf) :
    ingest k p Policy.replace now db = Except.ok (storeReplace k nf db) ∧
    readTable k (storeReplace k nf db) = nf := by
  constructor
  · simp [ingest, h]
  · cases k <;> rfl

def c1pay : DataFrame :=
  ⟨["Date", "Store", "Item Group", "Item Code", "Item Name", "UOM", "Qty",
    "Rate", "Value"],
   [[("Date", Val.str "01/02/2025"), ("Store", Val.str "Main"),
     ("Item Group", Val.str "Beverages"), ("Item Code", Val.str "B1"),
     ("Item Name", Val.str "Coffee"), ("UOM", Val.str "kg"),
     ("Qty", Val.num 2), ("Rate", Val.num 50), ("Value", Val.num 100)]]⟩

def c1nf : DataFrame :=
  ⟨["date", "store", "item_group", "item_code", "item_name", "uom", "qty",
    "rate", "value"],
   [[("date", Val.str "01/02/2025"), ("store", Val.str "Main"),
     ("item_group", Val.str "Beverages"), ("item_code", Val.str "B1"),
     ("item_name", Val.str "Coffee"), ("uom", Val.str "kg"),
     ("qty", Val.num 2), ("rate", Val.num 50), ("value", Val.num 100)]]⟩

/-- C1 witness: the round trip evaluated on a concrete receipt payload. -/
theorem c1_replace_round_trip_witness :
    normalizePipeline Kind.receipt c1pay = Except.ok c1nf ∧
    (ingest Kind.receipt c1pay Policy.replace "t0" initDb =
       Except.ok (storeReplace Kind.receipt c1nf initDb) ∧
     readTable Kind.receipt (storeReplace Kind.receipt c1nf initDb) = c1nf) :=
  ⟨by decide,
   c1_replace_round_trip Kind.receipt c1pay "t0" initDb c1nf (by decide)⟩

/-- C10: a replace-policy store call leaves the table with exactly the
frame's columns: the auto-assigned id, the created_at column and a column
previously added by add_column_if_not_exists are all gone (provided the
frame itself does not carry them), and a subsequent read returns exactly
the written frame. -/
theorem c10_replace_schema (k : Kind) (df : DataFrame) (db : DB)
    (c ty : String) (h1 : "id" ∉ df.cols) (h2 : "created_at" ∉ df.cols)
    (h3 : c ∉ df.cols) :
    ((storeReplace k df (addColumnIfNotExists (tableOf k) c ty db)).table
        (tableOf k)).cols = df.cols ∧
    "id" ∉ ((storeReplace k df (addColumnIfNotExists (tableOf k) c ty db)).table
        (tableOf k)).cols ∧
    "created_at" ∉ ((storeReplace k df
        (addColumnIfNotExists (tableOf k) c ty db)).table (tableOf k)).cols ∧
    c ∉ ((storeReplace k df (addColumnIfNotExists (tableOf k) c ty db)).table
        (tableOf k)).cols ∧
    readTable k (storeReplace k df (addColumnIfNotExists (tableOf k) c ty db)) =
      df := by
  have hbase :
      (storeReplace k df (addColumnIfNotExists (tableOf k) c ty db)).table
        (tableOf k) = df := by
    cases k <;> rfl
  have hread :
      readTable k (storeReplace k df (addColumnIfNotExists (tableOf k) c ty db)) =
        df := by
    cases k <;> rfl
  rw [hbase, hread]
  exact ⟨rfl, h1, h2, h3, rfl⟩

def c10df : DataFrame :=
  ⟨["item_code", "cost_price"],
   [[("item_code", Val.str "BEV-1"), ("cost_price", Val.num 1500)]]⟩

/-- C10 witness: the schema effect evaluated for the recipes table, a
concrete frame and a concrete previously-added column. -/
theorem c10_replace_schema_witness :
    ((storeReplace Kind.recipe c10df
        (addColumnIfNotExists (tableOf Kind.recipe) "notes" "TEXT" initDb)).table
        (tableOf Kind.recipe)).cols = c10df.cols ∧
    "id" ∉ ((storeReplace Kind.recipe c10df
        (addColumnIfNotExists (tableOf Kind.recipe) "notes" "TEXT" initDb)).table
        (tableOf Kind.recipe)).cols ∧
    "created_at" ∉ ((storeReplace Kind.recipe c10df
        (addColumnIfNotExists (tableOf Kind.recipe) "notes" "TEXT" initDb)).table
        (tableOf Kind.recipe)).cols ∧
    "notes" ∉ ((storeReplace Kind.recipe c10df
        (addColumnIfNotExists (tableOf Kind.recipe) "notes" "TEXT" initDb)).table
        (tableOf Kind.recipe)).cols ∧
    readTable Kind.recipe (storeReplace Kind.recipe c10df
        (addColumnIfNotExists (tableOf Kind.recipe) "notes" "TEXT" initDb)) =
      c10df :=
  c10_replace_schema Kind.recipe c10df initDb "notes" "TEXT" (by decide)
    (by decide) (by decide)

def c4df : DataFrame :=
  ⟨["item_code", "cost_price"],
   [[("item_code", Val.str "BEV-2"), ("cost_price", Val.num 1500)]]⟩

/-- C4: evaluation of the replace-path store at a concrete frame.  The
recipes table created by init_db carries a created_at column with a
store-assigned default, but process_and_store_recipe_data drops and
recreates the table with only the frame's columns: the read-back rows
carry no created_at value at all, so the Persistence Store does not assign
a write timestamp to them. -/
theorem c4_replace_drops_created_at :
    "created_at" ∈ (getRecipeData initDb).cols ∧
    getRecipeData (processAndStoreRecipeData c4df initDb) = c4df ∧
    "created_at" ∉ (getRecipeData (processAndStoreRecipeData c4df initDb)).cols ∧
    ((getRecipeData (processAndStoreRecipeData c4df initDb)).rows.all
      (fun r => (getVal r "created_at").isNone)) = true := by
  decide

/-- C2: a nonempty recipe payload from which some required field is absent
after alias mapping is rejected whole with a ValidationError naming every
missing required field — the ingest yields an error, so no database state
(and no row) is produced; the named list contains a field exactly when it
is required and absent after alias mapping.  (A zero-row payload is
rejected earlier with EmptyInputError, see C7.) -/
theorem c2_missing_required_rejected (p : DataFrame) (pol : Policy)
    (now : String) (db : DB) (f : String) (hrows : p.rows ≠ [])
    (hmiss : requiredMissing Kind.recipe p ≠ []) :
    ingest Kind.recipe p pol now db =
      Except.error (IngestError.validation (requiredMissing Kind.recipe p)) ∧
    (f ∈ requiredMissing Kind.recipe p ↔
      (f ∈ requiredFields Kind.recipe ∧ f ∉ canonCols p)) := by
  constructor
  · have h0 : p.rows.isEmpty = false := by
      cases hp : p.rows with
      | nil => exact absurd hp hrows
      | cons a l => rfl
    have h1 : (requiredMissing Kind.recipe p).isEmpty = false := by
      cases hm : requiredMissing Kind.recipe p with
      | nil => exact absurd hm hmiss
      | cons a l => rfl
    simp [ingest, normalizePipeline, h0, h1]
  · simp [requiredMissing, List.mem_filter]

def c2pay : DataFrame :=
  ⟨["Item Code", "Item Name", "Selling Price"],
   [[("Item Code", Val.str "R1"), ("Item Name", Val.str "Mojito"),
     ("Selling Price", Val.num 5000)]]⟩

/-- C2 witness: a concrete one-row recipe payload missing Cost Price is
rejected with a ValidationError naming cost_price. -/
theorem c2_missing_required_rejected_witness :
    ingest Kind.recipe c2pay Policy.replace "t0" initDb =
      Except.error (IngestError.validation (requiredMissing Kind.recipe c2pay)) ∧
    ("cost_price" ∈ requiredMissing Kind.recipe c2pay ↔
      ("cost_price" ∈ requiredFields Kind.recipe ∧
       "cost_price" ∉ canonCols c2pay)) :=
  c2_missing_required_rejected c2pay Policy.replace "t0" initDb "cost_price"
    (by decide) (by decide)

/-- C3: per-record metric derivation.  When cost_percentage is absent and
selling_price is a positive numeric, the record gains cost_percentage =
cost_price / selling_price * 100 (an exact rational, so never NaN or
infinity); when cost_percentage is absent and selling_price is zero or
missing, the record fails with a DerivationError; a record already
carrying a numeric cost_percentage passes through unchanged. -/
theorem c3_metric_derivation (r : Row) (sp cp x : Rat) :
    (getNum r "cost_percentage" = none →
      getNum r "selling_price" = some sp → 0 < sp →
      getNum r "cost_price" = some cp →
      deriveRow r =
        Except.ok (setVal r "cost_percentage" (Val.num (cp / sp * 100)))) ∧
    (getNum r "cost_percentage" = none →
      (getNum r "selling_price" = none ∨
       getNum r "selling_price" = some 0) →
      deriveRow r = Except.error DeriveError.derivationError) ∧
    (getNum r "cost_percentage" = some x → deriveRow r = Except.ok r) := by
  refine ⟨?_, ?_, ?_⟩
  · intro h0 h1 hpos h2
    simp [deriveRow, h0, h1, h2, ne_of_gt hpos]
  · intro h0 h1
    cases hc : getNum r "cost_price" with
    | none => rcases h1 with h1 | h1 <;> simp [deriveRow, h0, h1, hc]
    | some c => rcases h1 with h1 | h1 <;> simp [deriveRow, h0, h1, hc]
  · intro h0
    simp [deriveRow, h0]

def c3rowDerive : Row :=
  [("item_code", Val.str "R1"), ("selling_price", Val.num 4),
   ("cost_price", Val.num 1)]

def c3rowZero : Row :=
  [("item_code", Val.str "R2"), ("selling_price", Val.num 0),
   ("cost_price", Val.num 3)]

def c3rowKeep : Row :=
  [("item_code", Val.str "R3"), ("selling_price", Val.num 4),
   ("cost_price", Val.num 1), ("cost_percentage", Val.num 30)]

/-- C3 witness: the three behaviours evaluated on concrete records. -/
theorem c3_metric_derivation_witness :
    deriveRow c3rowDerive =
      Except.ok (setVal c3rowDerive "cost_percentage" (Val.num (1 / 4 * 100))) ∧
    deriveRow c3rowZero = Except.error DeriveError.derivationError ∧
    deriveRow c3rowKeep = Except.ok c3rowKeep :=
  ⟨(c3_metric_derivation c3rowDerive 4 1 0).1 (by decide) (by decide)
      (by decide) (by decide),
   (c3_metric_derivation c3rowZero 0 0 0).2.1 (by decide) (Or.inr (by decide)),
   (c3_metric_derivation c3rowKeep 0 0 30).2.2 (by decide)⟩

/-- C7: for every target kind and policy, ingesting a raw payload with
zero rows fails with EmptyInputError — the ingest yields an error, so no
empty batch is produced or stored. -/
theorem c7_empty_payload_rejected (k : Kind) (p : DataFrame) (pol : Policy)
    (now : String) (db : DB) (h : p.rows = []) :
    ingest k p pol now db = Except.error IngestError.emptyInput := by
  simp [ingest, normalizePipeline, h]

def c7pay : DataFrame :=
  ⟨["Item Code", "Item Name", "Selling Price", "Cost Price"], []⟩

/-- C7 witness: a concrete zero-row payload (with a valid header) is
rejected with EmptyInputError. -/
theorem c7_empty_payload_rejected_witness :
    ingest Kind.recipe c7pay Policy.replace "t0" initDb =
      Except.error IngestError.emptyInput :=
  c7_empty_payload_rejected Kind.recipe c7pay Policy.replace "t0" initDb
    (by decide)

def c8df : DataFrame :=
  ⟨["Item Group", "Item Name", "Value", "Qty"],
   [[("Item Group", Val.str "Beverages"), ("Item Name", Val.str "Coffee"),
     ("Value", Val.num 100), ("Qty", Val.num 1)],
    [("Item Group", Val.str "Beverages"), ("Item Name", Val.str "Tea"),
     ("Value", Val.num 200), ("Qty", Val.num 1)],
    [("Item Group", Val.str "Beverages"), ("Item Name", Val.str "Juice"),
     ("Value", Val.num 300), ("Qty", Val.num 1)]]⟩

unseal Rat.add Rat.mul Rat.inv Rat.sub in
/-- C8: the cost summary over three receipt rows with values 100, 200 and
300 sharing the Beverages item group yields SUM = 600, MEAN = 200 and
COUNT = 3 for that group. -/
theorem c8_summary_fixture :
    generateCostSummaryReport (processAndStoreReceiptData c8df initDb) =
      [⟨"Beverages", 600, 200, 3, 3⟩] := by
  decide

def c9rows : List Row :=
  [[("Item Name", Val.str "D"), ("Value", Val.num 10)],
   [("Item Name", Val.str "B"), ("Value", Val.num 80)],
   [("Item Name", Val.str "A"), ("Value", Val.num 50)],
   [("Item Name", Val.str "C"), ("Value", Val.num 80)]]

unseal Rat.add Rat.mul Rat.inv Rat.sub in
/-- C9 counterexample: over groups A:50, B:80, C:80, D:10 with n = 2 the
code does NOT return [B, 80] then [C, 80]: the pandas descending
sort_values reverses a key-ascending stable ascending-by-value order, so
the tie comes out C before B. -/
theorem c9_tie_order_counterexample :
    topN c9rows "Item Name" "Value" 2 ≠ [("B", (80 : Rat)), ("C", 80)] := by
  decide

unseal Rat.add Rat.mul Rat.inv Rat.sub in
/-- C9 amended: topN with n = 2 over groups A:50, B:80, C:80, D:10 returns
the two groups with the highest metric value, the tie between B and C
broken by DESCENDING group key ([C, 80] then [B, 80]), and never A or
D. -/
theorem c9_topn_amended :
    topN c9rows "Item Name" "Value" 2 = [("C", (80 : Rat)), ("B", 80)] ∧
    ((topN c9rows "Item Name" "Value" 2).all
      (fun e => e.1 != "A" && e.1 != "D")) = true := by
  decide

end CostMgmt
